import Mathlib

/-!
# NetSentinel Ingestor — shallow embedding and verification

A shallow embedding of the ingestor service of `netsentinel-fastapi`
(`services/ingestor/app/{main,schemas,config}.py`): the `LogCreate`
pydantic schema, the `/health` endpoint, and the `/api/v1/logs/ingest`
handler with its Kafka producer interaction, together with theorems
settling the specification claims about them.

The external Kafka broker is modelled as an oracle (`BrokerBehavior`)
describing how `send_and_wait` resolves; the handler records the calls
it makes to the broker so that "no send is attempted" is a statement
about the recorded call list.
-/

set_option autoImplicit false

namespace NetSentinel

/-- JSON values as delivered by the HTTP layer to the handler.  Numbers
are restricted to integers, which covers every payload the claims
exercise. -/
inductive Json where
  | null
  | bool (b : Bool)
  | num (n : Int)
  | str (s : String)
  | arr (elems : List Json)
  | obj (fields : List (String × Json))

/-- Look a key up in a JSON object; `none` on non-objects. -/
def jsonLookup (k : String) : Json → Option Json
  | .obj fields => fields.lookup k
  | _ => none

/-- Look a key up and keep the value only when it is a string. -/
def jsonGetStr (k : String) (j : Json) : Option String :=
  match jsonLookup k j with
  | some (.str s) => some s
  | _ => none

/-- A Python `datetime` value: calendar fields plus an optional UTC
offset in minutes (`none` models a naive datetime, `some 0` models
`timezone.utc` / pydantic's `TzInfo(UTC)`). -/
structure PyDatetime where
  year : Nat
  month : Nat
  day : Nat
  hour : Nat
  minute : Nat
  second : Nat
  microsecond : Nat
  tzOffsetMinutes : Option Int
  deriving DecidableEq

/-- Numeric value of a decimal digit character. -/
def digitVal (c : Char) : Option Nat :=
  if c.isDigit then some (c.toNat - 48) else none

def readDigitsAux : Nat → Nat → List Char → Option (Nat × List Char)
  | acc, 0, cs => some (acc, cs)
  | _, _ + 1, [] => none
  | acc, n + 1, c :: cs =>
    match digitVal c with
    | some d => readDigitsAux (acc * 10 + d) n cs
    | none => none

/-- Read exactly `n` decimal digits from the front of the input. -/
def readDigits (n : Nat) (cs : List Char) : Option (Nat × List Char) :=
  readDigitsAux 0 n cs

/-- Consume one expected character. -/
def expectChar (c : Char) : List Char → Option (List Char)
  | c' :: cs => if c' = c then some cs else none
  | [] => none

/-- Take the maximal run of leading digit characters. -/
def takeDigits : List Char → List Nat × List Char
  | [] => ([], [])
  | c :: cs =>
    match digitVal c with
    | some d =>
      let (ds, rest) := takeDigits cs
      (d :: ds, rest)
    | none => ([], c :: cs)

/-- Microseconds from a fractional-second digit run: the first six
digits, right-padded with zeros (further digits are truncated, as the
datetime parser behind pydantic does). -/
def microFromDigits (ds : List Nat) : Nat :=
  (ds.take 6 ++ List.replicate (6 - ds.length) 0).foldl (fun a d => a * 10 + d) 0

/-- Gregorian leap year. -/
def isLeap (y : Nat) : Bool :=
  (y % 4 = 0 && y % 100 ≠ 0) || y % 400 = 0

/-- Days in a month of a given year. -/
def daysInMonth (y m : Nat) : Nat :=
  if m = 2 then (if isLeap y then 29 else 28)
  else if m = 4 || m = 6 || m = 9 || m = 11 then 30
  else 31

def parseTzOffset (sign : Int) (cs : List Char) : Option (Option Int × List Char) :=
  match readDigits 2 cs with
  | none => none
  | some (hh, rest) =>
    let rest2 := match rest with
      | ':' :: r => r
      | r => r
    match readDigits 2 rest2 with
    | none => none
    | some (mm, rest3) =>
      if hh ≤ 23 ∧ mm ≤ 59 then some (some (sign * ((hh * 60 + mm : Nat) : Int)), rest3)
      else none

/-- Optional timezone suffix: `Z`/`z`, or `±HH:MM` / `±HHMM`; absent
means a naive datetime.  Trailing junk is left in place so that the
caller's end-of-input requirement rejects it. -/
def parseTz : List Char → Option (Option Int × List Char)
  | 'Z' :: cs => some (some 0, cs)
  | 'z' :: cs => some (some 0, cs)
  | '+' :: cs => parseTzOffset 1 cs
  | '-' :: cs => parseTzOffset (-1) cs
  | cs => some (none, cs)

/-- The optional `:SS[.ffffff]` tail of the time part. -/
def parseSeconds (cs : List Char) : Option (Nat × Nat × List Char) :=
  match cs with
  | ':' :: r =>
    match readDigits 2 r with
    | none => none
    | some (sec, r2) =>
      match r2 with
      | '.' :: r3 =>
        match takeDigits r3 with
        | ([], _) => none
        | (ds, r4) => some (sec, microFromDigits ds, r4)
      | _ => some (sec, 0, r2)
  | _ => some (0, 0, cs)

/-- ISO-8601 datetime parsing as pydantic applies it to string input of
a `datetime` field: `YYYY-MM-DD` then a `T`/`t`/space separator, then
`HH:MM[:SS[.ffffff]]`, then an optional timezone suffix, with calendar
range checks.  `Z` parses to a UTC-aware value. -/
def parseDatetime (s : String) : Option PyDatetime := do
  let cs := s.toList
  let (y, cs) ← readDigits 4 cs
  let cs ← expectChar '-' cs
  let (mo, cs) ← readDigits 2 cs
  let cs ← expectChar '-' cs
  let (d, cs) ← readDigits 2 cs
  let cs ← (match cs with
    | 'T' :: r => some r
    | 't' :: r => some r
    | ' ' :: r => some r
    | _ => none)
  let (h, cs) ← readDigits 2 cs
  let cs ← expectChar ':' cs
  let (mi, cs) ← readDigits 2 cs
  let (sec, micro, cs) ← parseSeconds cs
  let (tz, cs) ← parseTz cs
  if cs.isEmpty ∧ 1 ≤ mo ∧ mo ≤ 12 ∧ 1 ≤ d ∧ d ≤ daysInMonth y mo ∧
      h ≤ 23 ∧ mi ≤ 59 ∧ sec ≤ 59 then
    some ⟨y, mo, d, h, mi, sec, micro, tz⟩
  else none

/-- Zero-padded two-digit rendering. -/
def pad2 (n : Nat) : String :=
  if n < 10 then "0" ++ toString n else toString n

/-- Zero-padded four-digit rendering. -/
def pad4 (n : Nat) : String :=
  if n < 10 then "000" ++ toString n
  else if n < 100 then "00" ++ toString n
  else if n < 1000 then "0" ++ toString n
  else toString n

/-- Zero-padded six-digit rendering (microseconds). -/
def pad6 (n : Nat) : String :=
  if n < 10 then "00000" ++ toString n
  else if n < 100 then "0000" ++ toString n
  else if n < 1000 then "000" ++ toString n
  else if n < 10000 then "00" ++ toString n
  else if n < 100000 then "0" ++ toString n
  else toString n

/-- The `±HH:MM` suffix Python appends for an aware datetime; empty for
a naive one.  Python never emits `Z`: `timezone.utc` renders as
`+00:00`. -/
def offsetSuffix : Option Int → String
  | none => ""
  | some off =>
    let sign := if off < 0 then "-" else "+"
    let a := off.natAbs
    sign ++ pad2 (a / 60) ++ ":" ++ pad2 (a % 60)

/-- Python's `datetime.isoformat()`: `YYYY-MM-DDTHH:MM:SS`, the
`.ffffff` part only when `microsecond` is nonzero, then the offset
suffix for aware values. -/
def pyIsoformat (dt : PyDatetime) : String :=
  pad4 dt.year ++ "-" ++ pad2 dt.month ++ "-" ++ pad2 dt.day ++ "T" ++
  pad2 dt.hour ++ ":" ++ pad2 dt.minute ++ ":" ++ pad2 dt.second ++
  (if dt.microsecond = 0 then "" else "." ++ pad6 dt.microsecond) ++
  offsetSuffix dt.tzOffsetMinutes

/-- A validated log record, mirroring the `LogCreate` pydantic model of
`app/schemas.py`.  `metadata` is `Optional[Dict[str, Any]]` with
`default_factory=dict`: `none` models Python `None` (an explicit JSON
`null`), `some kvs` a dict. -/
structure LogRecord where
  timestamp : PyDatetime
  source : String
  level : String
  message : String
  metadata : Option (List (String × Json))

/-- The anchored alternation of `LogCreate.level`'s regex
`^(DEBUG|INFO|WARNING|ERROR|CRITICAL)$`: a string matches exactly when
it is one of the five alternatives. -/
def levelValues : List String :=
  ["DEBUG", "INFO", "WARNING", "ERROR", "CRITICAL"]

/-- `timestamp: datetime = Field(...)` — required; string input parsed
as an ISO-8601 datetime (the format the field documents). -/
def validateTimestamp (fields : List (String × Json)) : Except String PyDatetime :=
  match fields.lookup "timestamp" with
  | some (.str s) =>
    match parseDatetime s with
    | some dt => .ok dt
    | none => .error "timestamp: input should be a valid datetime"
  | some _ => .error "timestamp: input should be a valid datetime"
  | none => .error "timestamp: field required"

/-- `source: str = Field(..., min_length=1, max_length=255)`. -/
def validateSource (fields : List (String × Json)) : Except String String :=
  match fields.lookup "source" with
  | some (.str s) =>
    if 1 ≤ s.length ∧ s.length ≤ 255 then .ok s
    else .error "source: string length out of bounds"
  | some _ => .error "source: input should be a valid string"
  | none => .error "source: field required"

/-- `level: str = Field(..., pattern=...)` — the anchored five-way
alternation. -/
def validateLevel (fields : List (String × Json)) : Except String String :=
  match fields.lookup "level" with
  | some (.str s) =>
    if levelValues.contains s then .ok s
    else .error "level: string should match the level alternation"
  | some _ => .error "level: input should be a valid string"
  | none => .error "level: field required"

/-- `message: str = Field(..., min_length=1, max_length=10000)`. -/
def validateMessage (fields : List (String × Json)) : Except String String :=
  match fields.lookup "message" with
  | some (.str s) =>
    if 1 ≤ s.length ∧ s.length ≤ 10000 then .ok s
    else .error "message: string length out of bounds"
  | some _ => .error "message: input should be a valid string"
  | none => .error "message: field required"

/-- `metadata: Optional[Dict[str, Any]] = Field(default_factory=dict)`:
absent defaults to the empty dict; an explicit `null` is accepted by the
`Optional` and becomes `None`; an object is accepted; any other value is
rejected. -/
def validateMetadata (fields : List (String × Json)) :
    Except String (Option (List (String × Json))) :=
  match fields.lookup "metadata" with
  | none => .ok (some [])
  | some .null => .ok none
  | some (.obj kvs) => .ok (some kvs)
  | some _ => .error "metadata: input should be a valid dictionary"

/-- Validation of a request body against `LogCreate`: the body must be
a JSON object and every field constraint must hold. -/
def validateLogCreate (payload : Json) : Except String LogRecord :=
  match payload with
  | .obj fields => do
    let ts ← validateTimestamp fields
    let src ← validateSource fields
    let lvl ← validateLevel fields
    let msg ← validateMessage fields
    let md ← validateMetadata fields
    .ok { timestamp := ts, source := src, level := lvl, message := msg, metadata := md }
  | _ => .error "body: input should be a valid dictionary"

/-- Application settings of `app/config.py` with their default values
(environment overrides are modelled by other `Settings` values). -/
structure Settings where
  kafka_bootstrap_servers : String := "kafka:9092"
  logs_topic : String := "logs-raw"
  app_name : String := "NetSentinel Ingestor"
  app_version : String := "1.0.0"

/-- The module-level `settings = Settings()` instance. -/
def settings : Settings := {}

/-- An HTTP response: status code and JSON body. -/
structure HttpResponse where
  statusCode : Nat
  body : Json

/-- One recorded call to `producer.send_and_wait(topic, value)`. -/
structure SendCall where
  topic : String
  value : Json

/-- Oracle for how a `send_and_wait` call resolves: broker
acknowledgment, a `KafkaError` with the broker's message, or any other
exception. -/
inductive BrokerBehavior where
  | ack
  | kafkaError (msg : String)
  | otherError

/-- `metadata` as it appears in `model_dump(mode=json)`: `None` dumps to
JSON `null`, a dict dumps to a JSON object. -/
def metadataToJson : Option (List (String × Json)) → Json
  | none => .null
  | some kvs => .obj kvs

/-- The `log_data` dictionary the handler sends: `model_dump(mode=json)`
with `log_data[timestamp]` overwritten by
`log_entry.timestamp.isoformat()`. -/
def logData (r : LogRecord) : Json :=
  .obj [("timestamp", .str (pyIsoformat r.timestamp)),
        ("source", .str r.source),
        ("level", .str r.level),
        ("message", .str r.message),
        ("metadata", metadataToJson r.metadata)]

/-- The `ingest_log` handler of `app/main.py`, including the framework's
pydantic validation of the body (a failing body yields the 422 response
without the handler running).  `producerConnected` models the truthiness
of the global `kafka_producer`; the returned list records every call
made to the broker client. -/
def ingest_log (st : Settings) (producerConnected : Bool)
    (broker : BrokerBehavior) (payload : Json) : HttpResponse × List SendCall :=
  match validateLogCreate payload with
  | .error e => (⟨422, .obj [("detail", .str e)]⟩, [])
  | .ok r =>
    if producerConnected then
      let ld := logData r
      match broker with
      | .ack =>
        (⟨202, .obj [("status", .str "accepted"),
                     ("message", .str "Log queued for processing")]⟩,
         [⟨st.logs_topic, ld⟩])
      | .kafkaError m =>
        (⟨503, .obj [("detail", .str ("Failed to queue log for processing: " ++ m))]⟩,
         [⟨st.logs_topic, ld⟩])
      | .otherError =>
        (⟨500, .obj [("detail",
            .str "An unexpected error occurred while processing the log")]⟩,
         [⟨st.logs_topic, ld⟩])
    else
      (⟨503, .obj [("detail",
          .str "Log ingestion service is temporarily unavailable. Kafka is not connected.")]⟩,
       [])

/-- The `health_check` handler of `app/main.py`. -/
def health_check (st : Settings) (producerConnected : Bool) : HttpResponse :=
  ⟨200, .obj [("status", .str "healthy"),
              ("service", .str st.app_name),
              ("version", .str st.app_version),
              ("kafka", .str (if producerConnected then "connected" else "disconnected"))]⟩

/-- The example payload of the spec: a valid record with the timestamp
`2025-12-11T10:30:00Z`. -/
def examplePayload : Json :=
  .obj [("timestamp", .str "2025-12-11T10:30:00Z"),
        ("source", .str "web-api"),
        ("level", .str "ERROR"),
        ("message", .str "Database connection timeout"),
        ("metadata", .obj [("user_id", .str "12345")])]

/-- The record `examplePayload` validates to. -/
def exampleRecord : LogRecord :=
  { timestamp := ⟨2025, 12, 11, 10, 30, 0, 0, some 0⟩,
    source := "web-api",
    level := "ERROR",
    message := "Database connection timeout",
    metadata := some [("user_id", Json.str "12345")] }

/-- The datetime `2025-12-11T10:30:00Z` parses to: UTC-aware. -/
def baseTimestamp : PyDatetime := ⟨2025, 12, 11, 10, 30, 0, 0, some 0⟩

/-- Request fields that are valid except possibly for `level`. -/
def levelFields (lvl : String) : List (String × Json) :=
  [("timestamp", .str "2025-12-11T10:30:00Z"),
   ("source", .str "web-api"),
   ("level", .str lvl),
   ("message", .str "Database connection timeout")]

/-- A request body that is valid except possibly for `level`. -/
def levelPayload (lvl : String) : Json := .obj (levelFields lvl)

/-- The record `levelPayload lvl` validates to when `lvl` is accepted. -/
def levelRecord (lvl : String) : LogRecord :=
  { timestamp := baseTimestamp, source := "web-api", level := lvl,
    message := "Database connection timeout", metadata := some [] }

/-- Request fields that are valid except possibly for `message`. -/
def messageFields (msg : String) : List (String × Json) :=
  [("timestamp", .str "2025-12-11T10:30:00Z"),
   ("source", .str "web-api"),
   ("level", .str "ERROR"),
   ("message", .str msg)]

/-- A request body that is valid except possibly for `message`. -/
def messagePayload (msg : String) : Json := .obj (messageFields msg)

/-- The record `messagePayload msg` validates to when `msg` is accepted. -/
def messageRecord (msg : String) : LogRecord :=
  { timestamp := baseTimestamp, source := "web-api", level := "ERROR",
    message := msg, metadata := some [] }

/-- Request fields that are valid except possibly for `metadata`. -/
def metadataFields (md : Json) : List (String × Json) :=
  [("timestamp", .str "2025-12-11T10:30:00Z"),
   ("source", .str "web-api"),
   ("level", .str "ERROR"),
   ("message", .str "Database connection timeout"),
   ("metadata", md)]

/-- A request body that is valid except possibly for `metadata`. -/
def metadataPayload (md : Json) : Json := .obj (metadataFields md)

/-- A fully valid request body with no `metadata` member at all. -/
def metadataAbsentPayload : Json :=
  .obj [("timestamp", .str "2025-12-11T10:30:00Z"),
        ("source", .str "web-api"),
        ("level", .str "ERROR"),
        ("message", .str "Database connection timeout")]

/-- The record the metadata templates validate to. -/
def metadataRecord (md : Option (List (String × Json))) : LogRecord :=
  { timestamp := baseTimestamp, source := "web-api", level := "ERROR",
    message := "Database connection timeout", metadata := md }

/-- Whether a JSON value is a dictionary (decoded to a Python dict). -/
def isDict : Json → Bool
  | .obj _ => true
  | _ => false

/-- Whether a JSON value is `null`. -/
def isNull : Json → Bool
  | .null => true
  | _ => false

/-- The string `aa…a` of length `n`, for length-boundary payloads. -/
def strOfLen (n : Nat) : String := String.mk (List.replicate n 'a')

/-! ## Helper lemmas -/

/-- On the level template, the `level` field check is exactly membership
in the five-value alternation. -/
theorem validateLevel_levelFields (lvl : String) :
    validateLevel (levelFields lvl) =
      if levelValues.contains lvl then .ok lvl
      else .error "level: string should match the level alternation" := rfl

/-- Validation of the level template reduces to the `level` check: every
other field of the template passes. -/
theorem validateLogCreate_levelPayload (lvl : String) :
    validateLogCreate (levelPayload lvl) =
      Except.bind (validateLevel (levelFields lvl)) (fun l =>
        Except.ok { timestamp := baseTimestamp, source := "web-api", level := l,
                    message := "Database connection timeout", metadata := some [] }) := rfl

/-- On the message template, the `message` field check is exactly the
1–10000 length bound. -/
theorem validateMessage_messageFields (msg : String) :
    validateMessage (messageFields msg) =
      if 1 ≤ msg.length ∧ msg.length ≤ 10000 then .ok msg
      else .error "message: string length out of bounds" := rfl

/-- Validation of the message template reduces to the `message` check:
every other field of the template passes. -/
theorem validateLogCreate_messagePayload (msg : String) :
    validateLogCreate (messagePayload msg) =
      Except.bind (validateMessage (messageFields msg)) (fun m =>
        Except.ok { timestamp := baseTimestamp, source := "web-api", level := "ERROR",
                    message := m, metadata := some [] }) := rfl

/-- Validation of the metadata template reduces to the `metadata` check:
every other field of the template passes. -/
theorem validateLogCreate_metadataPayload (md : Json) :
    validateLogCreate (metadataPayload md) =
      Except.bind (validateMetadata (metadataFields md)) (fun m =>
        Except.ok { timestamp := baseTimestamp, source := "web-api", level := "ERROR",
                    message := "Database connection timeout", metadata := m }) := rfl

/-- `strOfLen n` has length `n`. -/
theorem strOfLen_length (n : Nat) : (strOfLen n).length = n := by
  show (List.replicate n 'a').length = n
  simp

/-! ## Claim theorems -/

/-- Claim C1: every request body that fails a `LogCreate` constraint
yields a 422 validation response, and no send to the broker is
attempted — validation completes before any side effect, in every
producer state and for every broker behavior. -/
theorem claim_C1_invalid_body_rejected_no_send (st : Settings) (up : Bool)
    (bk : BrokerBehavior) (payload : Json) (e : String)
    (h : validateLogCreate payload = .error e) :
    (ingest_log st up bk payload).1.statusCode = 422 ∧
    (ingest_log st up bk payload).2 = [] := by
  simp [ingest_log, h]

/-- Claim C1, witness: a non-object body is rejected with 422 and no
broker call. -/
theorem claim_C1_invalid_body_rejected_no_send_witness :
    (ingest_log settings true .ack .null).1.statusCode = 422 ∧
    (ingest_log settings true .ack .null).2 = [] :=
  claim_C1_invalid_body_rejected_no_send settings true .ack .null
    "body: input should be a valid dictionary" rfl

/-- Claim C2: a valid request arriving while the producer is absent
(`kafka_producer` falsy) fails with 503 and the fixed unavailability
detail, with no call to the broker client — for every broker
behavior. -/
theorem claim_C2_disconnected_503_no_send (st : Settings) (bk : BrokerBehavior)
    (payload : Json) (r : LogRecord) (h : validateLogCreate payload = .ok r) :
    (ingest_log st false bk payload).1.statusCode = 503 ∧
    jsonLookup "detail" (ingest_log st false bk payload).1.body =
      some (.str "Log ingestion service is temporarily unavailable. Kafka is not connected.") ∧
    (ingest_log st false bk payload).2 = [] := by
  simp [ingest_log, h, jsonLookup]

/-- Claim C2, witness: the spec's example payload against a disconnected
producer. -/
theorem claim_C2_disconnected_503_no_send_witness :
    (ingest_log settings false .ack examplePayload).1.statusCode = 503 ∧
    jsonLookup "detail" (ingest_log settings false .ack examplePayload).1.body =
      some (.str "Log ingestion service is temporarily unavailable. Kafka is not connected.") ∧
    (ingest_log settings false .ack examplePayload).2 = [] :=
  claim_C2_disconnected_503_no_send settings .ack examplePayload exampleRecord rfl

/-- Claim C3: a valid request with a connected producer and an
acknowledging broker returns exactly status 202 with body
`{status: accepted, message: Log queued for processing}`; and 202 is
returned only when the broker acknowledged the send. -/
theorem claim_C3_ack_202_fixed_body (st : Settings) (payload : Json) (r : LogRecord)
    (h : validateLogCreate payload = .ok r) :
    (ingest_log st true .ack payload).1 =
      ⟨202, .obj [("status", .str "accepted"), ("message", .str "Log queued for processing")]⟩ ∧
    (∀ bk, (ingest_log st true bk payload).1.statusCode = 202 → bk = .ack) := by
  constructor
  · simp [ingest_log, h]
  · intro bk hbk
    cases bk
    · rfl
    · simp [ingest_log, h] at hbk
    · simp [ingest_log, h] at hbk

/-- Claim C3, witness: the spec's example payload on the success
path. -/
theorem claim_C3_ack_202_fixed_body_witness :
    (ingest_log settings true .ack examplePayload).1 =
      ⟨202, .obj [("status", .str "accepted"), ("message", .str "Log queued for processing")]⟩ :=
  (claim_C3_ack_202_fixed_body settings examplePayload exampleRecord rfl).1

/-- Claim C4: when the broker client reports a `KafkaError`, the handler
returns 503 with a detail embedding the broker's message, and exactly
one publish attempt is made (no internal retry). -/
theorem claim_C4_broker_error_503_single_attempt (st : Settings) (payload : Json)
    (r : LogRecord) (m : String) (h : validateLogCreate payload = .ok r) :
    (ingest_log st true (.kafkaError m) payload).1.statusCode = 503 ∧
    jsonLookup "detail" (ingest_log st true (.kafkaError m) payload).1.body =
      some (.str ("Failed to queue log for processing: " ++ m)) ∧
    (ingest_log st true (.kafkaError m) payload).2.length = 1 := by
  simp [ingest_log, h, jsonLookup]

/-- Claim C4, witness: the example payload against a broker failing with
a concrete message. -/
theorem claim_C4_broker_error_503_single_attempt_witness :
    (ingest_log settings true (.kafkaError "RequestTimedOutError") examplePayload).1.statusCode
      = 503 ∧
    jsonLookup "detail"
      (ingest_log settings true (.kafkaError "RequestTimedOutError") examplePayload).1.body =
      some (.str ("Failed to queue log for processing: " ++ "RequestTimedOutError")) ∧
    (ingest_log settings true (.kafkaError "RequestTimedOutError") examplePayload).2.length = 1 :=
  claim_C4_broker_error_503_single_attempt settings examplePayload exampleRecord
    "RequestTimedOutError" rfl

/-- Claim C5, counterexample: for the input timestamp
`2025-12-11T10:30:00Z`, the published payload's `timestamp` field is
`2025-12-11T10:30:00+00:00` — not the literal `…Z` string the claim
states, since Python's `isoformat()` renders the UTC offset as
`+00:00`. -/
theorem claim_C5_literal_Z_counterexample :
    ((ingest_log settings true .ack examplePayload).2.map
      (fun c => jsonGetStr "timestamp" c.value)) = [some "2025-12-11T10:30:00+00:00"] ∧
    some "2025-12-11T10:30:00+00:00" ≠ some ("2025-12-11T10:30:00Z" : String) :=
  ⟨rfl, by decide⟩

/-- Claim C5, amended: every accepted record is published once, to the
configured topic, as a JSON object of the LogRecord fields with
`timestamp` rendered by Python's `datetime.isoformat()`; for the input
timestamp `2025-12-11T10:30:00Z` that rendering is the string
`2025-12-11T10:30:00+00:00`. -/
theorem claim_C5_payload_timestamp_isoformat (st : Settings) (payload : Json)
    (r : LogRecord) (h : validateLogCreate payload = .ok r) :
    (ingest_log st true .ack payload).2 = [⟨st.logs_topic, logData r⟩] ∧
    jsonLookup "timestamp" (logData r) = some (.str (pyIsoformat r.timestamp)) ∧
    jsonGetStr "timestamp" (logData exampleRecord) = some "2025-12-11T10:30:00+00:00" := by
  refine ⟨?_, rfl, rfl⟩
  simp [ingest_log, h]

/-- Claim C5, witness: the example payload is published to the default
topic with the `+00:00` timestamp rendering. -/
theorem claim_C5_payload_timestamp_isoformat_witness :
    (ingest_log settings true .ack examplePayload).2 =
      [⟨settings.logs_topic, logData exampleRecord⟩] ∧
    jsonLookup "timestamp" (logData exampleRecord) =
      some (.str (pyIsoformat exampleRecord.timestamp)) ∧
    jsonGetStr "timestamp" (logData exampleRecord) = some "2025-12-11T10:30:00+00:00" :=
  claim_C5_payload_timestamp_isoformat settings examplePayload exampleRecord rfl

/-- Claim C6: on a payload whose other fields are valid, validation of
`level` accepts exactly the five enumerated strings and rejects every
other value. -/
theorem claim_C6_level_enumeration (lvl : String) :
    (validateLogCreate (levelPayload lvl)).isOk = levelValues.contains lvl := by
  rw [validateLogCreate_levelPayload, validateLevel_levelFields]
  cases h : levelValues.contains lvl <;> simp [Except.bind, Except.isOk, Except.toBool]

/-- Claim C7: `message` strings of length 0 and 10001 are rejected,
lengths 1 and 10000 are accepted, all other constraints being
satisfied. -/
theorem claim_C7_message_length_boundaries :
    (validateLogCreate (messagePayload (strOfLen 0))).isOk = false ∧
    (validateLogCreate (messagePayload (strOfLen 10001))).isOk = false ∧
    (validateLogCreate (messagePayload (strOfLen 1))).isOk = true ∧
    (validateLogCreate (messagePayload (strOfLen 10000))).isOk = true := by
  refine ⟨?_, ?_, ?_, ?_⟩ <;>
    · rw [validateLogCreate_messagePayload, validateMessage_messageFields]
      simp [strOfLen_length, Except.bind, Except.isOk, Except.toBool]

/-- Claim C8, counterexample: the health body has no field named
`broker` in either producer state — the broker-status field of the code
is named `kafka`. -/
theorem claim_C8_no_broker_field_counterexample :
    jsonLookup "broker" (health_check settings true).body = none ∧
    jsonLookup "broker" (health_check settings false).body = none := ⟨rfl, rfl⟩

/-- Claim C8, amended: in both producer states, `GET /health` returns
200 with a body carrying `status`, `service`, `version`, and the
broker-status field — named `kafka` — whose value is `connected` when
the producer is present and `disconnected` otherwise. -/
theorem claim_C8_health_200_kafka_field (st : Settings) (up : Bool) :
    (health_check st up).statusCode = 200 ∧
    jsonGetStr "status" (health_check st up).body = some "healthy" ∧
    jsonGetStr "service" (health_check st up).body = some st.app_name ∧
    jsonGetStr "version" (health_check st up).body = some st.app_version ∧
    jsonGetStr "kafka" (health_check st up).body =
      some (if up then "connected" else "disconnected") := by
  cases up <;> exact ⟨rfl, rfl, rfl, rfl, rfl⟩

/-- Claim C9, counterexample: a payload whose `metadata` is an explicit
JSON `null` — present and not an object — is accepted, not rejected:
the `Optional` annotation admits `None`. -/
theorem claim_C9_null_metadata_accepted_counterexample :
    (validateLogCreate (metadataPayload .null)).isOk = true ∧ isDict Json.null = false :=
  ⟨rfl, rfl⟩

/-- Claim C9, amended: an absent `metadata` validates to the empty
mapping; a `metadata` object is accepted as given; a present `metadata`
that is neither an object nor `null` (array or scalar) is rejected; an
explicit `null` is accepted and yields `None` rather than the empty
mapping. -/
theorem claim_C9_metadata_validation :
    validateLogCreate metadataAbsentPayload = .ok (metadataRecord (some [])) ∧
    (∀ kvs, validateLogCreate (metadataPayload (.obj kvs)) = .ok (metadataRecord (some kvs))) ∧
    (∀ j, isDict j = false → isNull j = false →
      (validateLogCreate (metadataPayload j)).isOk = false) ∧
    validateLogCreate (metadataPayload .null) = .ok (metadataRecord none) := by
  refine ⟨rfl, fun kvs => rfl, ?_, rfl⟩
  intro j h1 h2
  cases j <;> simp [isDict, isNull] at h1 h2 <;> rfl

/-- Claim C9, witness: an array-valued `metadata` is rejected. -/
theorem claim_C9_metadata_validation_witness :
    (validateLogCreate (metadataPayload (.arr []))).isOk = false :=
  claim_C9_metadata_validation.2.2.1 (.arr []) rfl rfl

/-- Claim C10: the health body's `status` field is the constant
`healthy` in both producer states, and every body field other than
`kafka` is independent of the producer state. -/
theorem claim_C10_health_status_constant (st : Settings) :
    (∀ up, jsonGetStr "status" (health_check st up).body = some "healthy") ∧
    (∀ k, k ≠ "kafka" → ∀ up1 up2,
      jsonLookup k (health_check st up1).body = jsonLookup k (health_check st up2).body) := by
  constructor
  · intro up; cases up <;> rfl
  · intro k hk up1 up2
    by_cases h1 : k = "status"
    · subst h1; rfl
    by_cases h2 : k = "service"
    · subst h2; rfl
    by_cases h3 : k = "version"
    · subst h3; rfl
    have b1 : (k == "status") = false := beq_eq_false_iff_ne.mpr h1
    have b2 : (k == "service") = false := beq_eq_false_iff_ne.mpr h2
    have b3 : (k == "version") = false := beq_eq_false_iff_ne.mpr h3
    have b4 : (k == "kafka") = false := beq_eq_false_iff_ne.mpr hk
    simp [health_check, jsonLookup, List.lookup, b1, b2, b3, b4]

/-- Claim C10, witness: the `service` field agrees across the two
producer states. -/
theorem claim_C10_health_status_constant_witness :
    jsonLookup "service" (health_check settings true).body =
      jsonLookup "service" (health_check settings false).body :=
  (claim_C10_health_status_constant settings).2 "service" (by decide) true false

end NetSentinel
